import Mathlib

/-!
Shallow embedding of the `krita_diff` plugin's `Script` orchestration layer
(`src/frontends/krita/krita_diff/script.py`, the newer revision, and
`src/krita_plugin/krita_diff/script.py`, the older revision).

Pure data is modelled by structures; the host (Krita) document state is
threaded explicitly; side effects (status signals, backend requests, layer
creation, pixel writes, canvas resizes) are recorded as an event trace.
Fallible code paths (Python `assert`, `AttributeError` on a missing
document) are modelled with explicit error fields or `Except`.
-/

/-- A decoded image. Pixel content is irrelevant to the claims; the geometry
and the byte width of the raw buffer (bytes per pixel) are what the code
inspects. -/
structure Image where
  width : Nat
  height : Nat
  bytesPerPixel : Nat
  deriving DecidableEq

/-- A Krita `Selection` object: a rectangle plus an identity token standing
for the full (possibly non-rectangular) selection shape. `duplicate()` is a
value copy. -/
structure Selection where
  x : Nat
  y : Nat
  width : Nat
  height : Nat
  shape : Nat
  deriving DecidableEq

/-- A Krita `Node` (layer): its name, node type string, and visibility. -/
structure Node where
  name : String
  type : String
  visible : Bool
  deriving DecidableEq

/-- A Krita `Document`: canvas size, color metadata, active selection,
active node and the list of layer names present. -/
structure Document where
  width : Nat
  height : Nat
  colorDepth : String
  colorModel : String
  selection : Option Selection
  activeNode : Node
  layers : List String
  deriving DecidableEq

/-- The configuration options the `Script` consults. -/
structure Config where
  fix_aspect_ratio : Bool
  create_mask_layer : Bool
  save_temp_images : Bool
  sd_base_size : Nat
  sd_max_size : Nat
  deriving DecidableEq

/-- The mutable fields of the `Script` object that the claims concern. -/
structure ScriptState where
  cfg : Config
  doc : Option Document
  node : Node
  selection : Option Selection
  x : Nat
  y : Nat
  width : Nat
  height : Nat
  deriving DecidableEq

/-- The Krita application handle: only `activeDocument()` is consulted. -/
structure App where
  activeDocument : Option Document
  deriving DecidableEq

/-- A backend request as dispatched by the client. -/
inductive Request where
  | getConfig
  | txt2img (width height : Nat) (hasSel : Bool)
  | img2img (sel : Image) (mask : Option Image) (hasSel : Bool)
  | inpaint (sel : Image) (mask : Option Image) (hasSel : Bool)
  | upscale (sel : Image)
  deriving DecidableEq

/-- Observable side effects of the orchestration layer, in order. -/
inductive Event where
  | status (s : String)
  | request (r : Request)
  | saveTemp (tag : String)
  | hideNode
  | refresh
  | createLayer (name : String)
  | writePixels (name : String) (x y w h size : Nat)
  | resizeCanvas (w h : Nat)
  | setActiveNode (name : String)
  | setSelection (s : Option Selection)
  | addTransparencyMask (layer : String) (shape : Option Selection)
  deriving DecidableEq

/-- A txt2img / img2img / inpaint backend response: an ordered list of
(already decoded) output images. -/
structure Response where
  outputs : List Image
  deriving DecidableEq

/-- Modelled from the spec: status labels from `defaults.py`, which is not
under `src/`. Only their distinctness matters. -/
def ERR_NO_DOCUMENT : String := "error: no document open"

/-- Modelled from the spec: the busy status label from `defaults.py`. -/
def STATE_WAIT : String := "state: waiting"

/-- Modelled from the spec: the txt2img success label from `defaults.py`. -/
def STATE_TXT2IMG : String := "state: txt2img done"

/-- Modelled from the spec: the img2img success label from `defaults.py`. -/
def STATE_IMG2IMG : String := "state: img2img done"

/-- Modelled from the spec: the inpaint success label from `defaults.py`. -/
def STATE_INPAINT : String := "state: inpaint done"

/-- Modelled from the spec: the upscale success label from `defaults.py`. -/
def STATE_UPSCALE : String := "state: upscale done"

/-- Modelled from the spec: `utils.b64_to_img` (in `utils.py`, not under
`src/`) decodes a base64 blob to an image; the embedding carries decoded
images across the boundary, so decoding is the identity. -/
def b64_to_img (enc : Image) : Image := enc

/-- Modelled from the spec: `utils.img_to_ba` (in `utils.py`, not under
`src/`) converts an image to its raw pixel byte array; only the byte
length is observed (width * height * bytes per pixel). -/
def img_to_ba (i : Image) : Nat := i.width * i.height * i.bytesPerPixel

/-- Modelled from the spec: `QImage.scaled(w, h)` resizes to exactly the
requested dimensions (fit-to-selection, not crop) preserving pixel format. -/
def scaledTo (i : Image) (w h : Nat) : Image :=
  { i with width := w, height := h }

/-- Modelled from the spec: `layer.pixelData(x, y, w, h).size()` for a layer
of an 8-bit 4-channel RGBA document is `w * h * 4` bytes (spec section 3
fixes the color model to U8 RGBA). -/
def layerPixelDataSize (w h : Nat) : Nat := w * h * 4

/-- Smallest multiple of `base` that is at least `n` (for `0 < base`). -/
def roundUpMultiple (base n : Nat) : Nat := base * ((n + base - 1) / base)

/-- Modelled from the spec: `utils.find_optimal_selection_region` is in
`utils.py`, not under `src/`. Spec section 4.1: the adjusted rectangle is
the smallest rectangle containing the original whose dimensions satisfy the
backend tiling constraint (multiples of `base_size`, at least `base_size`,
at most `max_size`), clamped to the canvas; the original top-left corner is
kept where possible, shifted only as much as needed to stay in bounds, and
impossible cases clamp rather than fail. `fitDim` handles one axis. -/
def fitDim (base maxS c pos len : Nat) : Nat × Nat :=
  let len1 := min (min (roundUpMultiple base (max len base)) maxS) c
  let pos1 := if pos + len1 ≤ c then pos else c - len1
  (pos1, len1)

/-- Modelled from the spec: see `fitDim`. Argument order follows the call
site in `Script.adjust_selection`: base size, max size, x, y, width, height,
canvas width, canvas height. -/
def find_optimal_selection_region (base maxS x y w h cw ch : Nat) :
    Nat × Nat × Nat × Nat :=
  let rx := fitDim base maxS cw x w
  let ry := fitDim base maxS ch y h
  (rx.1, ry.1, rx.2, ry.2)

lemma le_roundUpMultiple (base n : Nat) (hb : 0 < base) :
    n ≤ roundUpMultiple base n := by
  have h1 := Nat.div_add_mod (n + base - 1) base
  have h2 : (n + base - 1) % base < base := Nat.mod_lt _ hb
  unfold roundUpMultiple
  omega

lemma roundUpMultiple_of_dvd (base n : Nat) (hb : 0 < base) (h : base ∣ n) :
    roundUpMultiple base n = n := by
  obtain ⟨k, rfl⟩ := h
  unfold roundUpMultiple
  have h1 : base * k + base - 1 = base - 1 + base * k := by omega
  rw [h1, Nat.add_mul_div_left _ _ hb, Nat.div_eq_of_lt (by omega), Nat.zero_add]

/-- All the one-axis facts about `fitDim` needed for the selection-adjustor
claims: monotone containment, canvas clamping, dimension bounds, and
stability when the length already satisfies the tiling constraint. -/
lemma fitDim_spec (base maxS c pos len : Nat) (hb : 0 < base)
    (hbm : base ≤ maxS) (hmc : maxS ≤ c) (hpl : pos + len ≤ c) :
    base ≤ (fitDim base maxS c pos len).2 ∧
    (fitDim base maxS c pos len).2 ≤ maxS ∧
    (fitDim base maxS c pos len).1 ≤ pos ∧
    (fitDim base maxS c pos len).1 + (fitDim base maxS c pos len).2 ≤ c ∧
    (len ≤ maxS →
      len ≤ (fitDim base maxS c pos len).2 ∧
      pos + len ≤ (fitDim base maxS c pos len).1 + (fitDim base maxS c pos len).2) ∧
    (base ∣ len → 0 < len → len ≤ maxS →
      fitDim base maxS c pos len = (pos, len)) := by
  have hr := le_roundUpMultiple base (max len base) hb
  have hmax : base ≤ max len base := le_max_right _ _
  have hmaxl : len ≤ max len base := le_max_left _ _
  unfold fitDim
  set len1 := min (min (roundUpMultiple base (max len base)) maxS) c with hlen1
  have hb1 : base ≤ len1 := by
    have h1 : base ≤ roundUpMultiple base (max len base) := le_trans hmax hr
    omega
  have hm1 : len1 ≤ maxS := by omega
  have hc1 : len1 ≤ c := by omega
  refine ⟨hb1, hm1, ?_, ?_, ?_, ?_⟩
  · by_cases hcase : pos + len1 ≤ c <;> simp [hcase] <;> omega
  · by_cases hcase : pos + len1 ≤ c <;> simp [hcase] <;> omega
  · intro hlm
    have hlen : len ≤ len1 := by
      have h1 : len ≤ roundUpMultiple base (max len base) := le_trans hmaxl hr
      omega
    constructor
    · exact hlen
    · by_cases hcase : pos + len1 ≤ c <;> simp [hcase] <;> omega
  · intro hdvd hpos hlm
    have hbl : base ≤ len := Nat.le_of_dvd hpos hdvd
    have hml : max len base = len := by omega
    have hru : roundUpMultiple base (max len base) = len := by
      rw [hml]
      exact roundUpMultiple_of_dvd base len hb hdvd
    have hlen1eq : len1 = len := by omega
    have hcase : pos + len1 ≤ c := by omega
    simp only [hlen1eq] at *
    simp [hcase]

/-- The geometry frozen by `Script.img_inserter`: the closure captures
`x, y, width, height` as arguments and `has_selection` as a local, so later
changes to the live `Script` fields cannot reach the callback. The `insert`
closure mutates these via `nonlocal`, so `insert` returns an updated copy. -/
structure Frozen where
  x : Nat
  y : Nat
  width : Nat
  height : Nat
  hasSelection : Bool
  deriving DecidableEq

/-- Result of one `insert` call (or of a batch of them): the nonlocal
frozen geometry after the call, the document after the call, names of
layers created, events emitted, and the Python exception if one escaped. -/
structure InsertResult where
  frozen : Frozen
  doc : Document
  layers : List String
  events : List Event
  error : Option String
  deriving DecidableEq

/-- What a generation `apply_*` method has dispatched: the frozen geometry
for the response callback, the captured original selection for the deferred
transparency-mask inserter (`none` when no mask inserter was created, i.e.
for upscale), and the backend request itself. -/
structure GenDispatch where
  frozen : Frozen
  maskOrig : Option (Option Selection)
  request : Request
  deriving DecidableEq

/-- Result of running a response callback: the `Script`'s document
afterwards, the events emitted, the layers created, the deferred
transparency-mask work scheduled on the host timer (captured original
selection and the layers to mask), and the Python exception if any. -/
structure CbResult where
  doc : Option Document
  events : List Event
  layers : List String
  pendingMask : Option (Option Selection × List String)
  error : Option String
  deriving DecidableEq

/-- Result of a user-triggered `action_*`: the `Script` state after the
dispatch phase, the dispatched request data (none when the action aborted
before dispatching), and the events emitted. -/
structure ActionResult where
  state : ScriptState
  dispatch : Option GenDispatch
  events : List Event
  error : Option String
  deriving DecidableEq

/-- The rectangles of all pixel-write events, in order. -/
def writeRects (es : List Event) : List (Nat × Nat × Nat × Nat) :=
  es.filterMap fun e => match e with
    | .writePixels _ x y w h _ => some (x, y, w, h)
    | _ => none

/-- The byte sizes of all pixel-write events, in order. -/
def writeSizes (es : List Event) : List Nat :=
  es.filterMap fun e => match e with
    | .writePixels _ _ _ _ _ size => some size
    | _ => none

/-- The names of all layer-creation events, in order. -/
def createdLayers (es : List Event) : List String :=
  es.filterMap fun e => match e with
    | .createLayer n => some n
    | _ => none

/-- All backend requests dispatched, in order. -/
def requestEvents (es : List Event) : List Request :=
  es.filterMap fun e => match e with
    | .request r => some r
    | _ => none

/-- All canvas-resize events, in order. -/
def resizePairs (es : List Event) : List (Nat × Nat) :=
  es.filterMap fun e => match e with
    | .resizeCanvas w h => some (w, h)
    | _ => none

/-- The selection shapes passed to `add_new_transparency_mask`, in order. -/
def maskShapes (es : List Event) : List (Option Selection) :=
  es.filterMap fun e => match e with
    | .addTransparencyMask _ s => some s
    | _ => none

namespace KritaFrontend

/-- `Script.update_selection` of the newer revision
(`src/frontends/krita/krita_diff/script.py` lines 83-118): refresh the
document reference, emit `ERR_NO_DOCUMENT` when absent, fall back to the
full canvas (and null the selection) when there is no usable selection,
then assert the document is U8 RGBA. -/
def update_selection (app : App) (s : ScriptState) :
    Except String (ScriptState × List Event) :=
  match app.activeDocument with
  | none => .ok ({ s with doc := none }, [Event.status ERR_NO_DOCUMENT])
  | some d =>
    let isNotSelected :=
      match d.selection with
      | none => true
      | some sel => decide (sel.width < 1) || decide (sel.height < 1)
    let s1 :=
      if isNotSelected then
        { s with doc := some d, node := d.activeNode, selection := none,
                 x := 0, y := 0, width := d.width, height := d.height }
      else
        match d.selection with
        | none => s
        | some sel =>
          { s with doc := some d, node := d.activeNode, selection := some sel,
                   x := sel.x, y := sel.y, width := sel.width, height := sel.height }
    if d.colorDepth = "U8" then
      if d.colorModel = "RGBA" then .ok (s1, [])
      else .error "Only RGB/Alpha supported"
    else .error "Only 8-bit integer/channel supported"

/-- `Script.adjust_selection` (newer revision lines 120-137; the older
revision's lines 121-138 are textually identical): when a selection exists
and `fix_aspect_ratio` is enabled, replace the frozen rectangle by
`find_optimal_selection_region`; reading `self.doc.width()` with no
document raises `AttributeError`. -/
def adjust_selection (s : ScriptState) : Except String ScriptState :=
  if s.selection.isSome && s.cfg.fix_aspect_ratio then
    match s.doc with
    | none => .error "AttributeError: doc is None"
    | some d =>
      let r := find_optimal_selection_region s.cfg.sd_base_size s.cfg.sd_max_size
        s.x s.y s.width s.height d.width d.height
      .ok { s with x := r.1, y := r.2.1, width := r.2.2.1, height := r.2.2.2 }
  else .ok s

/-- `Script.get_selection_image` (lines 139-146): the selection pixels as a
`Format_RGBA8888` image of the frozen rectangle's dimensions. -/
def get_selection_image (s : ScriptState) : Image :=
  { width := s.width, height := s.height, bytesPerPixel := 4 }

/-- `Script.get_mask_image` (lines 148-158): `none` unless the active node
is a paint layer or file layer. -/
def get_mask_image (s : ScriptState) : Option Image :=
  if s.node.type = "paintlayer" || s.node.type = "filelayer" then
    some { width := s.width, height := s.height, bytesPerPixel := 4 }
  else none

/-- `Script.img_inserter` (lines 164-170): freeze the geometry and the
has-selection flag at dispatch time. -/
def img_inserter (s : ScriptState) : Frozen :=
  { x := s.x, y := s.y, width := s.width, height := s.height,
    hasSelection := s.selection.isSome }

/-- The fit-to-selection step of `insert` (lines 189-193): when a selection
was active and the decoded image's dimensions differ from the frozen ones,
rescale to exactly the frozen dimensions. -/
def scaledImage (f : Frozen) (image : Image) : Image :=
  if f.hasSelection && (decide (image.width ≠ f.width) || decide (image.height ≠ f.height))
  then scaledTo image f.width f.height
  else image

/-- The `insert` closure produced by `Script.img_inserter` (lines 171-220):
decode, optionally rescale to the frozen selection, grow the canvas (and
override the nonlocal geometry per overflowing dimension) when the image
exceeds it, create the layer, check the raw buffer size against what the
layer expects, and only then write the pixels. -/
def insert (f : Frozen) (d : Document) (layerName : String) (enc : Image) :
    InsertResult :=
  let image := scaledImage f (b64_to_img enc)
  let ow := decide (d.width < image.width)
  let oh := decide (d.height < image.height)
  let x := if ow then 0 else f.x
  let width := if ow then image.width else f.width
  let y := if oh then 0 else f.y
  let height := if oh then image.height else f.height
  let newW := if ow then image.width else d.width
  let newH := if oh then image.height else d.height
  let d1 := if ow || oh then { d with width := newW, height := newH } else d
  let resizeEvs := if ow || oh then [Event.resizeCanvas newW newH] else []
  let ba := img_to_ba image
  let d2 := { d1 with layers := d1.layers ++ [layerName] }
  let f1 : Frozen := { f with x := x, y := y, width := width, height := height }
  let expected := layerPixelDataSize width height
  if expected = ba then
    { frozen := f1, doc := d2, layers := [layerName],
      events := resizeEvs ++ [Event.createLayer layerName,
        Event.writePixels layerName x y width height ba],
      error := none }
  else
    { frozen := f1, doc := d2, layers := [layerName],
      events := resizeEvs ++ [Event.createLayer layerName],
      error := some "Raw data size mismatch" }

/-- The list comprehension `[insert(f"{name} {i+1}", output) for ...]`
threading the nonlocal frozen geometry and the document through the batch;
a raised assertion aborts the remainder of the batch. -/
def insertOutputs (namePre : String) : Nat → Frozen → Document → List Image → InsertResult
  | _, f, d, [] => { frozen := f, doc := d, layers := [], events := [], error := none }
  | i, f, d, img :: rest =>
    let r := insert f d (namePre ++ " " ++ toString (i + 1)) img
    match r.error with
    | some e => { r with error := some e }
    | none =>
      let r2 := insertOutputs namePre (i + 1) r.frozen r.doc rest
      { frozen := r2.frozen, doc := r2.doc,
        layers := r.layers ++ r2.layers,
        events := r.events ++ r2.events, error := r2.error }

/-- The response callback of `Script.apply_txt2img` (lines 229-237): assert
the response exists, insert every output using the frozen geometry, refresh,
hand the new layers to the deferred mask inserter, and emit the success
status. Only the frozen data, the live document and the live config are
read; the live selection and geometry fields are not. -/
def txt2img_cb (f : Frozen) (orig : Option Selection) (s : ScriptState)
    (resp : Option Response) : CbResult :=
  match resp with
  | none =>
    { doc := s.doc, events := [], layers := [], pendingMask := none,
      error := some "Backend Error, check terminal" }
  | some r =>
    match s.doc with
    | none =>
      { doc := none, events := [], layers := [], pendingMask := none,
        error := some "AttributeError: doc is None" }
    | some d =>
      let ir := insertOutputs "txt2img" 0 f d r.outputs
      match ir.error with
      | some e =>
        { doc := some ir.doc, events := ir.events, layers := ir.layers,
          pendingMask := none, error := some e }
      | none =>
        { doc := some ir.doc,
          events := ir.events ++ [Event.refresh, Event.status STATE_TXT2IMG],
          layers := ir.layers,
          pendingMask := if s.cfg.create_mask_layer then some (orig, ir.layers) else none,
          error := none }

/-- The response callback of `Script.apply_img2img` (lines 263-279): like
`txt2img_cb` but the layer-name tag depends on the mode and the deferred
mask inserter is triggered only in plain img2img mode (mode 0). -/
def img2img_cb (f : Frozen) (orig : Option Selection) (mode : Nat)
    (s : ScriptState) (resp : Option Response) : CbResult :=
  match resp with
  | none =>
    { doc := s.doc, events := [], layers := [], pendingMask := none,
      error := some "Backend Error, check terminal" }
  | some r =>
    match s.doc with
    | none =>
      { doc := none, events := [], layers := [], pendingMask := none,
        error := some "AttributeError: doc is None" }
    | some d =>
      let namePre := if mode = 1 then "inpaint"
        else if mode = 2 then "sd upscale" else "img2img"
      let ir := insertOutputs namePre 0 f d r.outputs
      match ir.error with
      | some e =>
        { doc := some ir.doc, events := ir.events, layers := ir.layers,
          pendingMask := none, error := some e }
      | none =>
        if mode = 0 then
          { doc := some ir.doc,
            events := ir.events ++ [Event.refresh, Event.status STATE_IMG2IMG],
            layers := ir.layers,
            pendingMask := if s.cfg.create_mask_layer then some (orig, ir.layers) else none,
            error := none }
        else
          { doc := some ir.doc,
            events := ir.events ++ [Event.refresh, Event.status STATE_INPAINT],
            layers := ir.layers, pendingMask := none, error := none }

/-- The response callback of `Script.apply_simple_upscale` (lines 297-302):
a single output image named "upscale", no transparency mask. -/
def upscale_cb (f : Frozen) (s : ScriptState) (resp : Option Image) : CbResult :=
  match resp with
  | none =>
    { doc := s.doc, events := [], layers := [], pendingMask := none,
      error := some "Backend Error, check terminal" }
  | some out =>
    match s.doc with
    | none =>
      { doc := none, events := [], layers := [], pendingMask := none,
        error := some "AttributeError: doc is None" }
    | some d =>
      let ir := insert f d "upscale" out
      match ir.error with
      | some e =>
        { doc := some ir.doc, events := ir.events, layers := ir.layers,
          pendingMask := none, error := some e }
      | none =>
        { doc := some ir.doc,
          events := ir.events ++ [Event.refresh, Event.status STATE_UPSCALE],
          layers := ir.layers, pendingMask := none, error := none }

/-- The dispatch phase of `Script.apply_txt2img` (lines 224-241): freeze the
geometry, capture the original selection for the mask inserter, and post the
request with the frozen width/height and has-selection flag. -/
def apply_txt2img (s : ScriptState) : GenDispatch × List Event :=
  let f := img_inserter s
  let req := Request.txt2img s.width s.height s.selection.isSome
  ({ frozen := f, maskOrig := some s.selection, request := req },
   [Event.request req])

/-- The dispatch phase of `Script.apply_img2img` (lines 243-287): freeze the
geometry, capture the original selection, read the mask image from the
active node, and in inpaint mode with a mask present optionally save the
mask and hide the active node before capturing the selection image; then
post to the inpaint endpoint (mode 1) or the img2img endpoint (otherwise). -/
def apply_img2img (mode : Nat) (s : ScriptState) :
    Except String (GenDispatch × ScriptState × List Event) :=
  match s.doc with
  | none => .error "AttributeError: doc is None"
  | some d =>
    let f := img_inserter s
    let maskImage := get_mask_image s
    let hideNow := decide (mode = 1) && maskImage.isSome
    let evsMask := if hideNow then
        (if s.cfg.save_temp_images then [Event.saveTemp "mask"] else []) ++
        [Event.hideNode, Event.refresh]
      else []
    let node1 := if hideNow then { s.node with visible := false } else s.node
    let d1 := if hideNow then { d with activeNode := node1 } else d
    let s1 := { s with node := node1, doc := some d1 }
    let selImage := get_selection_image s1
    let evsSel := if s.cfg.save_temp_images then [Event.saveTemp "sel"] else []
    let req := if mode = 1 then Request.inpaint selImage maskImage s.selection.isSome
      else Request.img2img selImage maskImage s.selection.isSome
    .ok ({ frozen := f, maskOrig := some s.selection, request := req }, s1,
      evsMask ++ evsSel ++ [Event.request req])

/-- The dispatch phase of `Script.apply_simple_upscale` (lines 289-304):
freeze the geometry and post the selection image; no transparency-mask
inserter is created. -/
def apply_simple_upscale (s : ScriptState) :
    Except String (GenDispatch × List Event) :=
  match s.doc with
  | none => .error "AttributeError: doc is None"
  | some _ =>
    let f := img_inserter s
    let selImage := get_selection_image s
    let evsSel := if s.cfg.save_temp_images then [Event.saveTemp "sel"] else []
    let req := Request.upscale selImage
    .ok ({ frozen := f, maskOrig := none, request := req },
      evsSel ++ [Event.request req])

/-- One iteration of the `add_mask` loop: activate the new layer, set the
document selection to the captured original, and trigger
`add_new_transparency_mask`, which masks by the document's current
selection (that is, the original just set). -/
def add_mask_step (orig : Option Selection) (acc : Document × List Event)
    (layerName : String) : Document × List Event :=
  let d1 := { acc.1 with activeNode := { name := layerName, type := "paintlayer", visible := true } }
  let d2 := { d1 with selection := orig }
  (d2, acc.2 ++ [Event.setActiveNode layerName, Event.setSelection orig,
    Event.addTransparencyMask layerName d2.selection])

/-- The deferred `add_mask` closure of `Script.transparency_mask_inserter`
(lines 306-319), run on the host timer with the live `Script` state: for
each new layer run `add_mask_step` with the captured original selection;
finally restore the live selection and the previously active node. -/
def add_mask (orig : Option Selection) (layers : List String)
    (s : ScriptState) : Except String (Document × List Event) :=
  match s.doc with
  | none => .error "AttributeError: doc is None"
  | some d =>
    let curSel := s.selection
    let curLayer := d.activeNode
    let r := layers.foldl (add_mask_step orig) (d, [])
    .ok ({ r.1 with selection := curSel, activeNode := curLayer },
      r.2 ++ [Event.setSelection curSel, Event.setActiveNode curLayer.name])

/-- `Script.action_txt2img` (lines 329-335): emit the busy status, refresh
the selection, abort when no document is open, adjust the selection, then
dispatch. -/
def action_txt2img (app : App) (s : ScriptState) : ActionResult :=
  let ev0 := [Event.status STATE_WAIT]
  match update_selection app s with
  | .error e => { state := s, dispatch := none, events := ev0, error := some e }
  | .ok (s1, ev1) =>
    match s1.doc with
    | none => { state := s1, dispatch := none, events := ev0 ++ ev1, error := none }
    | some _ =>
      match adjust_selection s1 with
      | .error e => { state := s1, dispatch := none, events := ev0 ++ ev1, error := some e }
      | .ok s2 =>
        let r := apply_txt2img s2
        { state := s2, dispatch := some r.1, events := ev0 ++ ev1 ++ r.2, error := none }

/-- `Script.action_img2img` (lines 337-343): like `action_txt2img` but
dispatching `apply_img2img(mode=0)`. -/
def action_img2img (app : App) (s : ScriptState) : ActionResult :=
  let ev0 := [Event.status STATE_WAIT]
  match update_selection app s with
  | .error e => { state := s, dispatch := none, events := ev0, error := some e }
  | .ok (s1, ev1) =>
    match s1.doc with
    | none => { state := s1, dispatch := none, events := ev0 ++ ev1, error := none }
    | some _ =>
      match adjust_selection s1 with
      | .error e => { state := s1, dispatch := none, events := ev0 ++ ev1, error := some e }
      | .ok s2 =>
        match apply_img2img 0 s2 with
        | .error e => { state := s2, dispatch := none, events := ev0 ++ ev1, error := some e }
        | .ok (disp, s3, ev2) =>
          { state := s3, dispatch := some disp, events := ev0 ++ ev1 ++ ev2, error := none }

/-- `Script.action_inpaint` (lines 351-357): like `action_img2img` but with
`apply_img2img(mode=1)`. -/
def action_inpaint (app : App) (s : ScriptState) : ActionResult :=
  let ev0 := [Event.status STATE_WAIT]
  match update_selection app s with
  | .error e => { state := s, dispatch := none, events := ev0, error := some e }
  | .ok (s1, ev1) =>
    match s1.doc with
    | none => { state := s1, dispatch := none, events := ev0 ++ ev1, error := none }
    | some _ =>
      match adjust_selection s1 with
      | .error e => { state := s1, dispatch := none, events := ev0 ++ ev1, error := some e }
      | .ok s2 =>
        match apply_img2img 1 s2 with
        | .error e => { state := s2, dispatch := none, events := ev0 ++ ev1, error := some e }
        | .ok (disp, s3, ev2) =>
          { state := s3, dispatch := some disp, events := ev0 ++ ev1 ++ ev2, error := none }

/-- `Script.action_simple_upscale` (lines 359-364): no selection adjustment
at all. -/
def action_simple_upscale (app : App) (s : ScriptState) : ActionResult :=
  let ev0 := [Event.status STATE_WAIT]
  match update_selection app s with
  | .error e => { state := s, dispatch := none, events := ev0, error := some e }
  | .ok (s1, ev1) =>
    match s1.doc with
    | none => { state := s1, dispatch := none, events := ev0 ++ ev1, error := none }
    | some _ =>
      match apply_simple_upscale s1 with
      | .error e => { state := s1, dispatch := none, events := ev0 ++ ev1, error := some e }
      | .ok (disp, ev2) =>
        { state := s1, dispatch := some disp, events := ev0 ++ ev1 ++ ev2, error := none }

end KritaFrontend

namespace KritaPlugin

/-- Result of an older-revision step: the `Script` state (with its document)
afterwards, the events emitted, and the Python exception if any. -/
structure OldStepResult where
  state : ScriptState
  events : List Event
  error : Option String
  deriving DecidableEq

/-- `Script.update_selection` of the older revision
(`src/krita_plugin/krita_diff/script.py` lines 92-119): like the newer one
but with no color-depth assertions and without nulling `self.selection` in
the no-usable-selection branch. -/
def update_selection (app : App) (s : ScriptState) : ScriptState × List Event :=
  match app.activeDocument with
  | none => ({ s with doc := none }, [Event.status ERR_NO_DOCUMENT])
  | some d =>
    let isNotSelected :=
      match d.selection with
      | none => true
      | some sel => decide (sel.width < 1) || decide (sel.height < 1)
    if isNotSelected then
      ({ s with doc := some d, node := d.activeNode, selection := d.selection,
                x := 0, y := 0, width := d.width, height := d.height }, [])
    else
      match d.selection with
      | none => (s, [])
      | some sel =>
        ({ s with doc := some d, node := d.activeNode, selection := some sel,
                  x := sel.x, y := sel.y, width := sel.width, height := sel.height }, [])

/-- `Script.adjust_selection` of the older revision (lines 121-138) is
textually identical to the newer revision's. -/
def adjust_selection : ScriptState → Except String ScriptState :=
  KritaFrontend.adjust_selection

/-- `Script.insert_img` of the older revision (lines 144-153): decode,
create the layer and write the pixels at the live `self.x, self.y,
self.width, self.height` — with no byte-size check before the write. -/
def insert_img (s : ScriptState) (d : Document) (layerName : String)
    (enc : Image) : Document × List Event :=
  let image := b64_to_img enc
  let ba := img_to_ba image
  let d1 := { d with layers := d.layers ++ [layerName] }
  (d1, [Event.createLayer layerName,
    Event.writePixels layerName s.x s.y s.width s.height ba])

/-- `Script.apply_txt2img` of the older revision (lines 155-164):
synchronous — post the request, assert the response exists, insert each
output via `insert_img`, refresh. -/
def apply_txt2img (resp : Option Response) (s : ScriptState) : OldStepResult :=
  let req := Request.txt2img s.width s.height s.selection.isSome
  match resp with
  | none =>
    { state := s, events := [Event.request req],
      error := some "Backend Error, check terminal" }
  | some r =>
    match s.doc with
    | none =>
      { state := s, events := [Event.request req],
        error := some "AttributeError: doc is None" }
    | some d =>
      let step := fun (acc : Document × List Event) (p : Nat × Image) =>
        let t := insert_img s acc.1 ("txt2img " ++ toString (p.1 + 1)) p.2
        (t.1, acc.2 ++ t.2)
      let r2 := r.outputs.enum.foldl step (d, [])
      { state := { s with doc := some r2.1 },
        events := [Event.request req] ++ r2.2 ++ [Event.refresh], error := none }

/-- `Script.create_mask_layer_internal` of the older revision (lines
216-220): when a selection was captured, trigger
`add_new_transparency_mask` — which masks by the document's LIVE selection
at that moment — and then set the document selection to the captured one. -/
def create_mask_layer_internal (s : ScriptState) : OldStepResult :=
  if s.selection.isSome then
    match s.doc with
    | none => { state := s, events := [], error := some "AttributeError: doc is None" }
    | some d =>
      { state := { s with doc := some { d with selection := s.selection } },
        events := [Event.addTransparencyMask d.activeNode.name d.selection,
          Event.setSelection s.selection],
        error := none }
  else { state := s, events := [], error := none }

/-- `Script.create_mask_layer_workaround` (lines 222-227): schedule
`create_mask_layer_internal` on a timer when `create_mask_layer` is set. -/
def create_mask_layer_workaround (s : ScriptState) : Bool :=
  s.cfg.create_mask_layer

/-- Result of the older revision's `action_txt2img`: final state, events,
whether the deferred mask creation was scheduled, and any exception. -/
structure OldActionResult where
  state : ScriptState
  events : List Event
  scheduledMask : Bool
  error : Option String
  deriving DecidableEq

/-- `Script.action_txt2img` of the older revision (lines 230-241): emit the
busy status, then on a timer run `update_config` (a backend request),
`update_selection`, `adjust_selection`, `apply_txt2img`,
`create_mask_layer_workaround`, and the success status — with NO check that
a document is open. -/
def action_txt2img (app : App) (resp : Option Response) (s : ScriptState) :
    OldActionResult :=
  let ev0 := [Event.status STATE_WAIT, Event.request Request.getConfig]
  let u := update_selection app s
  match adjust_selection u.1 with
  | .error e =>
    { state := u.1, events := ev0 ++ u.2, scheduledMask := false, error := some e }
  | .ok s2 =>
    let a := apply_txt2img resp s2
    match a.error with
    | some e =>
      { state := a.state, events := ev0 ++ u.2 ++ a.events,
        scheduledMask := false, error := some e }
    | none =>
      { state := a.state,
        events := ev0 ++ u.2 ++ a.events ++ [Event.status STATE_TXT2IMG],
        scheduledMask := create_mask_layer_workaround s2, error := none }

end KritaPlugin

/-- C2 counterexample: at base 64, max 512, canvas 512x512, the rectangle
(10,10,100,100) lies in the canvas with both dimensions inside [64,512],
yet the adjustor returns (10,10,128,128), not the rectangle itself — the
spec's own tiling scenario forces dimensions up to a multiple of the base,
contradicting the claim's idempotence condition. -/
theorem C2_counterexample :
    find_optimal_selection_region 64 512 10 10 100 100 512 512 = (10, 10, 128, 128) ∧
    ((10, 10, 128, 128) : Nat × Nat × Nat × Nat) ≠ (10, 10, 100, 100) := by
  decide

/-- C2 (amended): for a rectangle inside the canvas with dimensions at most
the max size and base ≤ max ≤ min canvas dimension, the adjusted rectangle
contains the original, stays in the canvas, has both dimensions in
[base, max], and equals the original whenever both original dimensions
already satisfy the tiling constraint (positive multiples of the base).
This is sufficiency only: in clamped edge cases (for example base 64,
max 100, width 100, where the round-up to 128 is clamped back to 100) the
adjustor can also return a rectangle unchanged although its dimensions are
not multiples of the base. -/
theorem C2_adjust_selection_properties
    (base maxS x y w h cw ch : Nat)
    (hb : 0 < base) (hbm : base ≤ maxS) (hmw : maxS ≤ cw) (hmh : maxS ≤ ch)
    (hxw : x + w ≤ cw) (hyh : y + h ≤ ch) (hw : w ≤ maxS) (hh : h ≤ maxS)
    (x1 y1 w1 h1 : Nat)
    (heq : find_optimal_selection_region base maxS x y w h cw ch = (x1, y1, w1, h1)) :
    x1 ≤ x ∧ y1 ≤ y ∧ x + w ≤ x1 + w1 ∧ y + h ≤ y1 + h1 ∧
    x1 + w1 ≤ cw ∧ y1 + h1 ≤ ch ∧
    base ≤ w1 ∧ w1 ≤ maxS ∧ base ≤ h1 ∧ h1 ≤ maxS ∧
    (base ∣ w → base ∣ h → 0 < w → 0 < h → (x1, y1, w1, h1) = (x, y, w, h)) := by
  have hx := fitDim_spec base maxS cw x w hb hbm hmw hxw
  have hy := fitDim_spec base maxS ch y h hb hbm hmh hyh
  obtain ⟨hx1, hx2, hx3, hx4, hx5, hx6⟩ := hx
  obtain ⟨hy1, hy2, hy3, hy4, hy5, hy6⟩ := hy
  obtain ⟨hxa, hxb⟩ := hx5 hw
  obtain ⟨hya, hyb⟩ := hy5 hh
  simp only [find_optimal_selection_region, Prod.mk.injEq] at heq
  obtain ⟨e1, e2, e3, e4⟩ := heq
  subst e1; subst e2; subst e3; subst e4
  refine ⟨hx3, hy3, hxb, hyb, hx4, hy4, hx1, hx2, hy1, hy2, ?_⟩
  intro hdw hdh hw0 hh0
  have hex := hx6 hdw hw0 hw
  have hey := hy6 hdh hh0 hh
  rw [hex, hey]

/-- C2 witness: the amended theorem applied at the spec's scenario input
(10,10,100,100) on a 512x512 canvas with base 64 and max 512. -/
theorem C2_witness :
    64 ≤ (find_optimal_selection_region 64 512 10 10 100 100 512 512).2.2.1 ∧
    (find_optimal_selection_region 64 512 10 10 100 100 512 512).2.2.1 ≤ 512 ∧
    (find_optimal_selection_region 64 512 10 10 100 100 512 512).1 ≤ 10 := by
  have h := C2_adjust_selection_properties 64 512 10 10 100 100 512 512
    (by decide) (by decide) (by decide) (by decide) (by decide) (by decide)
    (by decide) (by decide) 10 10 128 128 (by decide)
  obtain ⟨h1, h2, h3, h4, h5, h6, h7, h8, h9, h10, h11⟩ := h
  exact ⟨h7, h8, h1⟩

namespace KritaFrontend

lemma scaledImage_of_hasSelection (f : Frozen) (img : Image)
    (hsel : f.hasSelection = true) (hbpp : img.bytesPerPixel = 4) :
    scaledImage f img = { width := f.width, height := f.height, bytesPerPixel := 4 } := by
  obtain ⟨iw, ih, ibpp⟩ := img
  simp only [Image.mk.injEq] at hbpp
  subst hbpp
  by_cases h1 : iw = f.width <;> by_cases h2 : ih = f.height <;>
    simp [scaledImage, scaledTo, hsel, h1, h2]

/-- When a selection was frozen and the frozen rectangle fits in the current
canvas, `insert` rescales the output onto exactly the frozen rectangle: no
canvas resize, the nonlocal geometry is untouched, the size check passes,
and the single write lands at the frozen rectangle. -/
lemma insert_fits (f : Frozen) (d : Document) (name : String) (img : Image)
    (hsel : f.hasSelection = true) (hw : f.width ≤ d.width)
    (hh : f.height ≤ d.height) (hbpp : img.bytesPerPixel = 4) :
    insert f d name img =
      { frozen := f, doc := { d with layers := d.layers ++ [name] },
        layers := [name],
        events := [Event.createLayer name,
          Event.writePixels name f.x f.y f.width f.height (f.width * f.height * 4)],
        error := none } := by
  unfold insert
  rw [show b64_to_img img = img from rfl, scaledImage_of_hasSelection f img hsel hbpp]
  simp only [decide_eq_false (Nat.not_lt.mpr hw), decide_eq_false (Nat.not_lt.mpr hh)]
  simp [layerPixelDataSize, img_to_ba]

/-- Frozen-rectangle batch insertion: under the same fitting hypotheses,
the whole batch succeeds, never perturbs the frozen geometry or the canvas
size, and writes every output at exactly the frozen rectangle. -/
lemma insertOutputs_frozen (namePre : String) (outs : List Image) :
    ∀ (i : Nat) (f : Frozen) (d : Document),
    f.hasSelection = true → f.width ≤ d.width → f.height ≤ d.height →
    (∀ img ∈ outs, img.bytesPerPixel = 4) →
    (insertOutputs namePre i f d outs).error = none ∧
    (insertOutputs namePre i f d outs).frozen = f ∧
    (insertOutputs namePre i f d outs).doc.width = d.width ∧
    (insertOutputs namePre i f d outs).doc.height = d.height ∧
    writeRects (insertOutputs namePre i f d outs).events =
      List.replicate outs.length (f.x, f.y, f.width, f.height) := by
  induction outs with
  | nil =>
    intro i f d _ _ _ _
    simp [insertOutputs, writeRects]
  | cons img rest ih =>
    intro i f d hsel hw hh hbpp
    have hbpp1 : img.bytesPerPixel = 4 := hbpp img (by simp)
    have hbppr : ∀ img2 ∈ rest, img2.bytesPerPixel = 4 :=
      fun img2 hm => hbpp img2 (by simp [hm])
    have hins := insert_fits f d (namePre ++ " " ++ toString (i + 1)) img hsel hw hh hbpp1
    have hrec := ih (i + 1) f { d with layers := d.layers ++ [namePre ++ " " ++ toString (i + 1)] }
      hsel hw hh hbppr
    simp only [insertOutputs, hins]
    obtain ⟨hr1, hr2, hr3, hr4, hr5⟩ := hrec
    refine ⟨hr1, hr2, hr3, hr4, ?_⟩
    simp only [writeRects, List.filterMap_append, List.length_cons, List.replicate_succ]
    simp only [writeRects] at hr5
    simp [hr5]

end KritaFrontend

/-- C1: the geometry frozen at dispatch time is what the response callback
inserts with. Part 1: each of `apply_txt2img`, `apply_img2img` and
`apply_simple_upscale` freezes exactly the `Script`'s rectangle (and
has-selection flag) at the moment the request is posted. Part 2 (and 3, 4):
each response callback receives only that frozen record; for an arbitrary
callback-time `Script` state — any live selection and any live x, y, width,
height — every result image that fits is written at exactly the frozen
rectangle. -/
theorem C1_frozen_geometry_reused :
    (∀ s : ScriptState,
      (KritaFrontend.apply_txt2img s).1.frozen =
        { x := s.x, y := s.y, width := s.width, height := s.height,
          hasSelection := s.selection.isSome } ∧
      (∀ mode disp s1 evs, KritaFrontend.apply_img2img mode s = .ok (disp, s1, evs) →
        disp.frozen =
          { x := s.x, y := s.y, width := s.width, height := s.height,
            hasSelection := s.selection.isSome }) ∧
      (∀ disp evs, KritaFrontend.apply_simple_upscale s = .ok (disp, evs) →
        disp.frozen =
          { x := s.x, y := s.y, width := s.width, height := s.height,
            hasSelection := s.selection.isSome })) ∧
    (∀ (f : Frozen) (orig : Option Selection) (s : ScriptState) (d : Document)
        (outs : List Image),
      s.doc = some d → f.hasSelection = true →
      f.width ≤ d.width → f.height ≤ d.height →
      (∀ img ∈ outs, img.bytesPerPixel = 4) →
      writeRects (KritaFrontend.txt2img_cb f orig s (some ⟨outs⟩)).events =
        List.replicate outs.length (f.x, f.y, f.width, f.height)) ∧
    (∀ (f : Frozen) (orig : Option Selection) (mode : Nat) (s : ScriptState)
        (d : Document) (outs : List Image),
      s.doc = some d → f.hasSelection = true →
      f.width ≤ d.width → f.height ≤ d.height →
      (∀ img ∈ outs, img.bytesPerPixel = 4) →
      writeRects (KritaFrontend.img2img_cb f orig mode s (some ⟨outs⟩)).events =
        List.replicate outs.length (f.x, f.y, f.width, f.height)) ∧
    (∀ (f : Frozen) (s : ScriptState) (d : Document) (out : Image),
      s.doc = some d → f.hasSelection = true →
      f.width ≤ d.width → f.height ≤ d.height → out.bytesPerPixel = 4 →
      writeRects (KritaFrontend.upscale_cb f s (some out)).events =
        [(f.x, f.y, f.width, f.height)]) := by
  refine ⟨?_, ?_, ?_, ?_⟩
  · intro s
    refine ⟨rfl, ?_, ?_⟩
    · intro mode disp s1 evs h
      unfold KritaFrontend.apply_img2img at h
      cases hd : s.doc with
      | none => rw [hd] at h; exact absurd h (by simp)
      | some d =>
        rw [hd] at h
        simp only [Except.ok.injEq, Prod.mk.injEq] at h
        rw [← h.1]
        rfl
    · intro disp evs h
      unfold KritaFrontend.apply_simple_upscale at h
      cases hd : s.doc with
      | none => rw [hd] at h; exact absurd h (by simp)
      | some d =>
        rw [hd] at h
        simp only [Except.ok.injEq, Prod.mk.injEq] at h
        rw [← h.1]
        rfl
  · intro f orig s d outs hdoc hsel hw hh hbpp
    have hio := KritaFrontend.insertOutputs_frozen "txt2img" outs 0 f d hsel hw hh hbpp
    obtain ⟨he, _, _, _, hrects⟩ := hio
    unfold KritaFrontend.txt2img_cb
    rw [hdoc]
    simp only [he]
    simp only [writeRects, List.filterMap_append] at hrects ⊢
    simp [hrects]
  · intro f orig mode s d outs hdoc hsel hw hh hbpp
    have hio := KritaFrontend.insertOutputs_frozen
      (if mode = 1 then "inpaint" else if mode = 2 then "sd upscale" else "img2img")
      outs 0 f d hsel hw hh hbpp
    obtain ⟨he, _, _, _, hrects⟩ := hio
    unfold KritaFrontend.img2img_cb
    rw [hdoc]
    simp only [he]
    simp only [writeRects, List.filterMap_append] at hrects ⊢
    by_cases hm : mode = 0
    · subst hm
      simp only [show ((0 : Nat) = 1) = False from by simp,
        show ((0 : Nat) = 2) = False from by simp, if_false] at hrects ⊢
      simp [hrects]
    · simp [hm, hrects]
  · intro f s d out hdoc hsel hw hh hbpp
    have hins := KritaFrontend.insert_fits f d "upscale" out hsel hw hh hbpp
    unfold KritaFrontend.upscale_cb
    rw [hdoc]
    simp only [hins]
    simp [writeRects]

/-- A sample configuration for concrete witnesses. -/
def exCfg : Config :=
  { fix_aspect_ratio := true, create_mask_layer := true, save_temp_images := false,
    sd_base_size := 64, sd_max_size := 512 }

/-- A sample paint-layer node for concrete witnesses. -/
def exNode : Node := { name := "bg", type := "paintlayer", visible := true }

/-- A sample 100x100 U8 RGBA document for concrete witnesses. -/
def exDoc : Document :=
  { width := 100, height := 100, colorDepth := "U8", colorModel := "RGBA",
    selection := none, activeNode := exNode, layers := [] }

/-- A sample frozen geometry for concrete witnesses. -/
def exFrozen : Frozen := { x := 3, y := 4, width := 8, height := 6, hasSelection := true }

/-- A callback-time `Script` state whose live selection and live x, y,
width, height all differ from the frozen geometry. -/
def exLiveState : ScriptState :=
  { cfg := exCfg, doc := some exDoc, node := exNode,
    selection := some { x := 50, y := 60, width := 7, height := 9, shape := 5 },
    x := 99, y := 98, width := 97, height := 96 }

/-- C1 witness: two outputs arriving at a state whose live geometry was
changed to (99,98,97,96) are still written at the frozen (3,4,8,6). -/
theorem C1_witness :
    writeRects (KritaFrontend.txt2img_cb exFrozen none exLiveState
      (some { outputs := [{ width := 8, height := 6, bytesPerPixel := 4 },
        { width := 20, height := 30, bytesPerPixel := 4 }] })).events =
      List.replicate 2 (3, 4, 8, 6) :=
  C1_frozen_geometry_reused.2.1 exFrozen none exLiveState exDoc
    [{ width := 8, height := 6, bytesPerPixel := 4 },
     { width := 20, height := 30, bytesPerPixel := 4 }]
    rfl rfl (by decide) (by decide) (by decide)

/-- A sample 512x512 U8 RGBA document for concrete counterexamples. -/
def exDoc512 : Document :=
  { width := 512, height := 512, colorDepth := "U8", colorModel := "RGBA",
    selection := none, activeNode := exNode, layers := [] }

/-- C3 counterexample: a decoded 1024x1024 result image exceeds the 512x512
canvas, but because a 100x100 selection is active the image is first
rescaled onto the selection, so the canvas is NOT grown — contradicting the
claim, which quantifies over decoded images. -/
theorem C3_counterexample :
    512 < (1024 : Nat) ∧
    (KritaFrontend.insert { x := 0, y := 0, width := 100, height := 100, hasSelection := true }
      exDoc512 "txt2img 1" { width := 1024, height := 1024, bytesPerPixel := 4 }).doc.width = 512 ∧
    (KritaFrontend.insert { x := 0, y := 0, width := 100, height := 100, hasSelection := true }
      exDoc512 "txt2img 1" { width := 1024, height := 1024, bytesPerPixel := 4 }).doc.height = 512 ∧
    resizePairs (KritaFrontend.insert { x := 0, y := 0, width := 100, height := 100, hasSelection := true }
      exDoc512 "txt2img 1" { width := 1024, height := 1024, bytesPerPixel := 4 }).events = [] := by
  decide

/-- C3 (amended): when the result image, after the optional fit-to-selection
rescale, exceeds the canvas in some dimension, `insert` resizes the canvas
to the componentwise maximum (hence at least the image's size), and on each
overflowing dimension overrides the insertion rectangle to start at 0 with
the image's full extent, leaving the other dimension's offset and extent
untouched. -/
theorem C3_canvas_growth (f : Frozen) (d : Document) (name : String)
    (img i : Image) (r : InsertResult)
    (hi : i = KritaFrontend.scaledImage f (b64_to_img img))
    (hr : r = KritaFrontend.insert f d name img)
    (hover : d.width < i.width ∨ d.height < i.height) :
    r.doc.width = max d.width i.width ∧
    r.doc.height = max d.height i.height ∧
    i.width ≤ r.doc.width ∧ i.height ≤ r.doc.height ∧
    resizePairs r.events = [(max d.width i.width, max d.height i.height)] ∧
    r.frozen.x = (if d.width < i.width then 0 else f.x) ∧
    r.frozen.width = (if d.width < i.width then i.width else f.width) ∧
    r.frozen.y = (if d.height < i.height then 0 else f.y) ∧
    r.frozen.height = (if d.height < i.height then i.height else f.height) := by
  subst hr
  unfold KritaFrontend.insert
  rw [← hi]
  rcases Nat.lt_or_ge d.width i.width with how | how <;>
    rcases Nat.lt_or_ge d.height i.height with hoh | hoh
  · simp only [decide_eq_true how, decide_eq_true hoh]
    have h1 : max d.width i.width = i.width := Nat.max_eq_right (Nat.le_of_lt how)
    have h2 : max d.height i.height = i.height := Nat.max_eq_right (Nat.le_of_lt hoh)
    simp only [apply_ite InsertResult.doc, apply_ite InsertResult.frozen,
      apply_ite InsertResult.events, apply_ite resizePairs, ite_self]
    simp [resizePairs, h1, h2, how, hoh]
  · simp only [decide_eq_true how, decide_eq_false (Nat.not_lt.mpr hoh)]
    have h1 : max d.width i.width = i.width := Nat.max_eq_right (Nat.le_of_lt how)
    have h2 : max d.height i.height = d.height := Nat.max_eq_left hoh
    simp only [apply_ite InsertResult.doc, apply_ite InsertResult.frozen,
      apply_ite InsertResult.events, apply_ite resizePairs, ite_self]
    simp [resizePairs, h1, h2, how, Nat.not_lt.mpr hoh]
    exact hoh
  · simp only [decide_eq_false (Nat.not_lt.mpr how), decide_eq_true hoh]
    have h1 : max d.width i.width = d.width := Nat.max_eq_left how
    have h2 : max d.height i.height = i.height := Nat.max_eq_right (Nat.le_of_lt hoh)
    simp only [apply_ite InsertResult.doc, apply_ite InsertResult.frozen,
      apply_ite InsertResult.events, apply_ite resizePairs, ite_self]
    simp [resizePairs, h1, h2, Nat.not_lt.mpr how, hoh]
    exact how
  · exact absurd hover (by push_neg; exact ⟨how, hoh⟩)

/-- C3 witness: a 300x50 image with no active selection on the 100x100
sample document grows the canvas to 300x100 and overrides only the width
dimension of the insertion rectangle, keeping y = 8. -/
theorem C3_witness :
    (KritaFrontend.insert { x := 7, y := 8, width := 512, height := 512, hasSelection := false }
      exDoc "upscale" { width := 300, height := 50, bytesPerPixel := 4 }).doc.width = 300 ∧
    (KritaFrontend.insert { x := 7, y := 8, width := 512, height := 512, hasSelection := false }
      exDoc "upscale" { width := 300, height := 50, bytesPerPixel := 4 }).frozen.x = 0 ∧
    (KritaFrontend.insert { x := 7, y := 8, width := 512, height := 512, hasSelection := false }
      exDoc "upscale" { width := 300, height := 50, bytesPerPixel := 4 }).frozen.y = 8 := by
  have h := C3_canvas_growth { x := 7, y := 8, width := 512, height := 512, hasSelection := false }
    exDoc "upscale" { width := 300, height := 50, bytesPerPixel := 4 } _ _ rfl rfl
    (by decide)
  refine ⟨?_, ?_, ?_⟩
  · rw [h.1]; decide
  · rw [h.2.2.2.2.2.1]; decide
  · rw [h.2.2.2.2.2.2.2.1]; decide

/-- C5 (amended): in the newer revision, `insert` writes pixels only after
the raw buffer's byte length matches what the destination layer expects for
the final target rectangle; on mismatch it raises and writes nothing. (The
older revision's `insert_img` has no such check — see the counterexample.) -/
theorem C5_insert_verifies_buffer_size (f : Frozen) (d : Document)
    (name : String) (img : Image) :
    (layerPixelDataSize (KritaFrontend.insert f d name img).frozen.width
        (KritaFrontend.insert f d name img).frozen.height =
      img_to_ba (KritaFrontend.scaledImage f (b64_to_img img)) →
        (KritaFrontend.insert f d name img).error = none ∧
        writeSizes (KritaFrontend.insert f d name img).events =
          [img_to_ba (KritaFrontend.scaledImage f (b64_to_img img))]) ∧
    (layerPixelDataSize (KritaFrontend.insert f d name img).frozen.width
        (KritaFrontend.insert f d name img).frozen.height ≠
      img_to_ba (KritaFrontend.scaledImage f (b64_to_img img)) →
        (KritaFrontend.insert f d name img).error = some "Raw data size mismatch" ∧
        writeSizes (KritaFrontend.insert f d name img).events = []) := by
  unfold KritaFrontend.insert
  rcases Nat.lt_or_ge d.width (KritaFrontend.scaledImage f (b64_to_img img)).width with how | how <;>
    rcases Nat.lt_or_ge d.height (KritaFrontend.scaledImage f (b64_to_img img)).height with hoh | hoh
  · simp only [decide_eq_true how, decide_eq_true hoh, Bool.or_self,
      eq_self_iff_true, Bool.false_eq_true, if_true, if_false]
    simp only [apply_ite InsertResult.frozen, ite_self]
    split
    next h =>
      refine ⟨fun _ => ?_, fun hne => absurd h hne⟩
      simp [writeSizes, h]
    next h =>
      refine ⟨fun heq => absurd heq h, fun _ => ?_⟩
      simp [writeSizes, h]
  · simp only [decide_eq_true how, decide_eq_false (Nat.not_lt.mpr hoh), Bool.or_false,
      eq_self_iff_true, Bool.false_eq_true, if_true, if_false]
    simp only [apply_ite InsertResult.frozen, ite_self]
    split
    next h =>
      refine ⟨fun _ => ?_, fun hne => absurd h hne⟩
      simp [writeSizes, h]
    next h =>
      refine ⟨fun heq => absurd heq h, fun _ => ?_⟩
      simp [writeSizes, h]
  · simp only [decide_eq_false (Nat.not_lt.mpr how), decide_eq_true hoh, Bool.false_or,
      eq_self_iff_true, Bool.false_eq_true, if_true, if_false]
    simp only [apply_ite InsertResult.frozen, ite_self]
    split
    next h =>
      refine ⟨fun _ => ?_, fun hne => absurd h hne⟩
      simp [writeSizes, h]
    next h =>
      refine ⟨fun heq => absurd heq h, fun _ => ?_⟩
      simp [writeSizes, h]
  · simp only [decide_eq_false (Nat.not_lt.mpr how), decide_eq_false (Nat.not_lt.mpr hoh),
      Bool.or_self, eq_self_iff_true, Bool.false_eq_true, if_true, if_false]
    simp only [apply_ite InsertResult.frozen, ite_self]
    split
    next h =>
      refine ⟨fun _ => ?_, fun hne => absurd h hne⟩
      simp [writeSizes, h]
    next h =>
      refine ⟨fun heq => absurd heq h, fun _ => ?_⟩
      simp [writeSizes, h]

/-- C5 counterexample: the older revision's `insert_img`, handed a decoded
image whose raw buffer is 300 bytes where the 10x10 RGBA target rectangle
expects 400, still performs the pixel write and raises nothing. -/
theorem C5_counterexample :
    writeSizes (KritaPlugin.insert_img
      { cfg := exCfg, doc := some exDoc, node := exNode, selection := none,
        x := 0, y := 0, width := 10, height := 10 }
      exDoc "img2img 1" { width := 10, height := 10, bytesPerPixel := 3 }).2 = [300] ∧
    layerPixelDataSize 10 10 = 400 ∧ (300 : Nat) ≠ 400 := by
  decide

/-- C4 (amended): every response callback, handed a `None` response, raises
the fatal backend error immediately: no event is emitted, no layer is
created, and the callback leaves the document exactly as it found it; the
older revision's synchronous `apply_txt2img` likewise raises right after
dispatching, inserting nothing. -/
theorem C4_null_response_fatal :
    (∀ (f : Frozen) (orig : Option Selection) (s : ScriptState),
      KritaFrontend.txt2img_cb f orig s none =
        { doc := s.doc, events := [], layers := [], pendingMask := none,
          error := some "Backend Error, check terminal" }) ∧
    (∀ (f : Frozen) (orig : Option Selection) (mode : Nat) (s : ScriptState),
      KritaFrontend.img2img_cb f orig mode s none =
        { doc := s.doc, events := [], layers := [], pendingMask := none,
          error := some "Backend Error, check terminal" }) ∧
    (∀ (f : Frozen) (s : ScriptState),
      KritaFrontend.upscale_cb f s none =
        { doc := s.doc, events := [], layers := [], pendingMask := none,
          error := some "Backend Error, check terminal" }) ∧
    (∀ s : ScriptState,
      KritaPlugin.apply_txt2img none s =
        { state := s,
          events := [Event.request (Request.txt2img s.width s.height s.selection.isSome)],
          error := some "Backend Error, check terminal" }) :=
  ⟨fun _ _ _ => rfl, fun _ _ _ _ => rfl, fun _ _ => rfl, fun _ => rfl⟩

/-- A sample explicit selection for concrete states. -/
def exSel : Selection := { x := 10, y := 10, width := 20, height := 20, shape := 1 }

/-- A concrete inpaint dispatch state: paint-layer active node, an explicit
selection, temp-image saving off. -/
def exStateInpaint : ScriptState :=
  { cfg := exCfg, doc := some exDoc, node := exNode, selection := some exSel,
    x := 10, y := 10, width := 20, height := 20 }

/-- The sample node after being hidden by the inpaint dispatch phase. -/
def exNodeHidden : Node := { name := "bg", type := "paintlayer", visible := false }

/-- The sample document after its active node was hidden. -/
def exDocHidden : Document :=
  { width := 100, height := 100, colorDepth := "U8", colorModel := "RGBA",
    selection := none, activeNode := exNodeHidden, layers := [] }

/-- The state after the inpaint dispatch phase: the mask layer has been
hidden, which also changes the document. -/
def exStateInpaintAfter : ScriptState :=
  { cfg := exCfg, doc := some exDocHidden, node := exNodeHidden,
    selection := some exSel, x := 10, y := 10, width := 20, height := 20 }

/-- C4 counterexample: an inpaint invocation hides the mask layer at
dispatch time; when the backend then returns `None`, the callback fails
loudly and inserts nothing, but the invocation as a whole has NOT left the
document unmodified — the hidden layer persists. -/
theorem C4_counterexample :
    KritaFrontend.apply_img2img 1 exStateInpaint =
      .ok ({ frozen := { x := 10, y := 10, width := 20, height := 20, hasSelection := true },
             maskOrig := some (some exSel),
             request := Request.inpaint { width := 20, height := 20, bytesPerPixel := 4 }
               (some { width := 20, height := 20, bytesPerPixel := 4 }) true },
            exStateInpaintAfter,
            [Event.hideNode, Event.refresh,
             Event.request (Request.inpaint { width := 20, height := 20, bytesPerPixel := 4 }
               (some { width := 20, height := 20, bytesPerPixel := 4 }) true)]) ∧
    (KritaFrontend.img2img_cb
      { x := 10, y := 10, width := 20, height := 20, hasSelection := true }
      (some exSel) 1 exStateInpaintAfter none).error.isSome = true ∧
    (KritaFrontend.img2img_cb
      { x := 10, y := 10, width := 20, height := 20, hasSelection := true }
      (some exSel) 1 exStateInpaintAfter none).doc = exStateInpaintAfter.doc ∧
    exStateInpaintAfter.doc ≠ exStateInpaint.doc := by
  refine ⟨rfl, rfl, rfl, ?_⟩
  simp [exStateInpaintAfter, exStateInpaint, exDocHidden, exDoc, exNodeHidden, exNode]

/-- C5 witness: a well-formed 8x6 RGBA output matching the frozen 8x6
rectangle passes the size check and is written. -/
theorem C5_witness :
    (KritaFrontend.insert exFrozen exDoc "txt2img 1"
      { width := 8, height := 6, bytesPerPixel := 4 }).error = none ∧
    writeSizes (KritaFrontend.insert exFrozen exDoc "txt2img 1"
      { width := 8, height := 6, bytesPerPixel := 4 }).events =
      [img_to_ba (KritaFrontend.scaledImage exFrozen
        (b64_to_img { width := 8, height := 6, bytesPerPixel := 4 }))] :=
  (C5_insert_verifies_buffer_size exFrozen exDoc "txt2img 1"
    { width := 8, height := 6, bytesPerPixel := 4 }).1 (by decide)

/-- The `Script` state `update_selection` produces when no usable selection
exists: the full canvas as the effective rectangle and a cleared selection. -/
def fullCanvasState (s : ScriptState) (d : Document) : ScriptState :=
  { cfg := s.cfg, doc := some d, node := d.activeNode, selection := none,
    x := 0, y := 0, width := d.width, height := d.height }

/-- C6: with no active selection (and a U8 RGBA document), both revisions
of `update_selection` set the effective rectangle to the full canvas and a
`None` selection, and the subsequent txt2img dispatch reports
`has_selection = false` with the full canvas size. -/
theorem C6_no_selection_full_canvas (app : App) (s : ScriptState) (d : Document)
    (hdoc : app.activeDocument = some d) (hsel : d.selection = none)
    (hdepth : d.colorDepth = "U8") (hmodel : d.colorModel = "RGBA") :
    KritaFrontend.update_selection app s = .ok (fullCanvasState s d, []) ∧
    (KritaFrontend.apply_txt2img (fullCanvasState s d)).1.request =
      Request.txt2img d.width d.height false ∧
    KritaPlugin.update_selection app s = (fullCanvasState s d, []) := by
  unfold KritaFrontend.update_selection KritaPlugin.update_selection fullCanvasState
  rw [hdoc]
  simp [hsel, hdepth, hmodel, KritaFrontend.apply_txt2img, KritaFrontend.img_inserter]

/-- C6 witness: the theorem applied to the sample document with no
selection. -/
theorem C6_witness :
    (KritaFrontend.apply_txt2img (fullCanvasState exLiveState exDoc)).1.request =
      Request.txt2img 100 100 false :=
  (C6_no_selection_full_canvas { activeDocument := some exDoc } exLiveState exDoc
    rfl rfl rfl rfl).2.1

/-- C7: the selection adjustment is gated. With `fix_aspect_ratio` off (or
no selection at all) `adjust_selection` is the identity; the upscale action
never adjusts, dispatching the geometry exactly as `update_selection` left
it; and for txt2img with the option on and a selection present, the
dispatched frozen geometry is exactly the adjusted rectangle. -/
theorem C7_adjustment_gating :
    (∀ s : ScriptState, s.cfg.fix_aspect_ratio = false →
      KritaFrontend.adjust_selection s = .ok s) ∧
    (∀ s : ScriptState, s.selection = none →
      KritaFrontend.adjust_selection s = .ok s) ∧
    (∀ (app : App) (s s1 : ScriptState) (ev1 : List Event),
      KritaFrontend.update_selection app s = .ok (s1, ev1) →
      s1.doc.isSome = true →
      (KritaFrontend.action_simple_upscale app s).dispatch.map (fun dsp => dsp.frozen) =
        some (KritaFrontend.img_inserter s1)) ∧
    (∀ (app : App) (s s1 : ScriptState) (ev1 : List Event) (d : Document),
      KritaFrontend.update_selection app s = .ok (s1, ev1) →
      s1.doc = some d → s1.selection.isSome = true → s1.cfg.fix_aspect_ratio = true →
      (KritaFrontend.action_txt2img app s).dispatch.map (fun dsp => dsp.frozen) =
        some { x := (find_optimal_selection_region s1.cfg.sd_base_size s1.cfg.sd_max_size
                s1.x s1.y s1.width s1.height d.width d.height).1,
               y := (find_optimal_selection_region s1.cfg.sd_base_size s1.cfg.sd_max_size
                s1.x s1.y s1.width s1.height d.width d.height).2.1,
               width := (find_optimal_selection_region s1.cfg.sd_base_size s1.cfg.sd_max_size
                s1.x s1.y s1.width s1.height d.width d.height).2.2.1,
               height := (find_optimal_selection_region s1.cfg.sd_base_size s1.cfg.sd_max_size
                s1.x s1.y s1.width s1.height d.width d.height).2.2.2,
               hasSelection := s1.selection.isSome }) := by
  refine ⟨?_, ?_, ?_, ?_⟩
  · intro s h
    unfold KritaFrontend.adjust_selection
    simp [h]
  · intro s h
    unfold KritaFrontend.adjust_selection
    simp [h]
  · intro app s s1 ev1 hupd hdoc
    cases hd : s1.doc with
    | none => rw [hd] at hdoc; simp at hdoc
    | some d =>
      simp [KritaFrontend.action_simple_upscale, hupd,
        KritaFrontend.apply_simple_upscale, hd]
  · intro app s s1 ev1 d hupd hd hsel hfix
    simp [KritaFrontend.action_txt2img, hupd, KritaFrontend.adjust_selection, hd,
      hsel, hfix, KritaFrontend.apply_txt2img, KritaFrontend.img_inserter]

/-- A configuration with `fix_aspect_ratio` disabled. -/
def exCfgOff : Config :=
  { fix_aspect_ratio := false, create_mask_layer := false, save_temp_images := false,
    sd_base_size := 64, sd_max_size := 512 }

/-- A state carrying a selection but with `fix_aspect_ratio` off. -/
def exStateOff : ScriptState :=
  { cfg := exCfgOff, doc := some exDoc, node := exNode, selection := some exSel,
    x := 1, y := 2, width := 3, height := 4 }

/-- C7 witness: with the option off the adjustor is the identity, and the
upscale action dispatches the un-adjusted full-canvas geometry. -/
theorem C7_witness :
    KritaFrontend.adjust_selection exStateOff = .ok exStateOff ∧
    (KritaFrontend.action_simple_upscale { activeDocument := some exDoc }
        exStateOff).dispatch.map (fun dsp => dsp.frozen) =
      some (KritaFrontend.img_inserter (fullCanvasState exStateOff exDoc)) := by
  constructor
  · exact C7_adjustment_gating.1 exStateOff rfl
  · exact C7_adjustment_gating.2.2.1 { activeDocument := some exDoc } exStateOff
      (fullCanvasState exStateOff exDoc) [] rfl rfl

/-- C8 (amended): in the newer revision, every enabled action invoked with
no open document emits the busy status and the no-document error status and
then aborts: no selection adjustment, no backend request, no layer
creation, and the `Script` fields other than the document reference are
untouched. (The older revision violates this — see the counterexample.) -/
theorem C8_no_document_aborts (app : App) (s : ScriptState)
    (h : app.activeDocument = none) :
    KritaFrontend.action_txt2img app s =
      { state := { s with doc := none }, dispatch := none,
        events := [Event.status STATE_WAIT, Event.status ERR_NO_DOCUMENT],
        error := none } ∧
    KritaFrontend.action_img2img app s =
      { state := { s with doc := none }, dispatch := none,
        events := [Event.status STATE_WAIT, Event.status ERR_NO_DOCUMENT],
        error := none } ∧
    KritaFrontend.action_inpaint app s =
      { state := { s with doc := none }, dispatch := none,
        events := [Event.status STATE_WAIT, Event.status ERR_NO_DOCUMENT],
        error := none } ∧
    KritaFrontend.action_simple_upscale app s =
      { state := { s with doc := none }, dispatch := none,
        events := [Event.status STATE_WAIT, Event.status ERR_NO_DOCUMENT],
        error := none } := by
  refine ⟨?_, ?_, ?_, ?_⟩ <;>
    simp [KritaFrontend.action_txt2img, KritaFrontend.action_img2img,
      KritaFrontend.action_inpaint, KritaFrontend.action_simple_upscale,
      KritaFrontend.update_selection, h]

/-- C8 witness: the sample state with no document open. -/
theorem C8_witness :
    KritaFrontend.action_txt2img { activeDocument := none } exLiveState =
      { state := { exLiveState with doc := none }, dispatch := none,
        events := [Event.status STATE_WAIT, Event.status ERR_NO_DOCUMENT],
        error := none } :=
  (C8_no_document_aborts { activeDocument := none } exLiveState rfl).1

/-- Stale `Script` fields left over from a previous successful run: no
selection, full 512x512 canvas geometry, document reference present. -/
def exStaleState : ScriptState :=
  { cfg := exCfg, doc := some exDoc512, node := exNode, selection := none,
    x := 0, y := 0, width := 512, height := 512 }

/-- C8 counterexample: the older revision's `action_txt2img` with no open
document still dispatches a txt2img generation request using the stale
frozen geometry (512x512, has_selection false) after emitting the
no-document error status, and only then dies with an `AttributeError` — it
does not abort before the backend request. -/
theorem C8_counterexample :
    Request.txt2img 512 512 false ∈
      requestEvents (KritaPlugin.action_txt2img { activeDocument := none }
        (some { outputs := [] }) exStaleState).events ∧
    (KritaPlugin.action_txt2img { activeDocument := none }
      (some { outputs := [] }) exStaleState).error.isSome = true := by
  decide

namespace KritaFrontend

lemma add_mask_fold_shapes (orig : Option Selection) (layers : List String) :
    ∀ (d : Document) (evs : List Event),
    maskShapes (layers.foldl (add_mask_step orig) (d, evs)).2 =
      maskShapes evs ++ layers.map (fun _ => orig) := by
  induction layers with
  | nil => intro d evs; simp
  | cons l rest ih =>
    intro d evs
    simp only [List.foldl_cons, add_mask_step]
    rw [ih]
    simp [maskShapes]

end KritaFrontend

/-- C9 (amended, newer revision): the geometry adjustment never touches the
`Selection` object itself, each of txt2img / img2img / inpaint captures that
original selection for the deferred mask inserter (upscale captures
nothing); the deferred `add_mask`, whenever it runs and whatever the live
document selection then is, creates every transparency mask from the
captured original selection and afterwards restores the live selection; and
no mask work is ever scheduled for inpaint or upscale, nor when
`create_mask_layer` is off. (The older revision masks by the live document
selection — see the counterexample.) -/
theorem C9_transparency_mask_original_selection :
    (∀ s s1 : ScriptState, KritaFrontend.adjust_selection s = .ok s1 →
      s1.selection = s.selection) ∧
    (∀ s : ScriptState, (KritaFrontend.apply_txt2img s).1.maskOrig = some s.selection) ∧
    (∀ (mode : Nat) (s : ScriptState) (disp : GenDispatch) (s1 : ScriptState)
        (evs : List Event),
      KritaFrontend.apply_img2img mode s = .ok (disp, s1, evs) →
      disp.maskOrig = some s.selection) ∧
    (∀ (s : ScriptState) (disp : GenDispatch) (evs : List Event),
      KritaFrontend.apply_simple_upscale s = .ok (disp, evs) →
      disp.maskOrig = none) ∧
    (∀ (orig : Option Selection) (layers : List String) (s : ScriptState)
        (d dEnd : Document) (evs : List Event),
      s.doc = some d →
      KritaFrontend.add_mask orig layers s = .ok (dEnd, evs) →
      maskShapes evs = layers.map (fun _ => orig) ∧ dEnd.selection = s.selection) ∧
    (∀ (f : Frozen) (orig : Option Selection) (mode : Nat) (s : ScriptState)
        (resp : Option Response), mode ≠ 0 →
      (KritaFrontend.img2img_cb f orig mode s resp).pendingMask = none) ∧
    (∀ (f : Frozen) (s : ScriptState) (resp : Option Image),
      (KritaFrontend.upscale_cb f s resp).pendingMask = none) ∧
    (∀ (f : Frozen) (orig : Option Selection) (s : ScriptState)
        (resp : Option Response), s.cfg.create_mask_layer = false →
      (KritaFrontend.txt2img_cb f orig s resp).pendingMask = none) := by
  refine ⟨?_, ?_, ?_, ?_, ?_, ?_, ?_, ?_⟩
  · intro s s1 h
    unfold KritaFrontend.adjust_selection at h
    split at h
    · cases hd : s.doc with
      | none => rw [hd] at h; exact absurd h (by simp)
      | some d =>
        rw [hd] at h
        simp only [Except.ok.injEq] at h
        rw [← h]
    · simp only [Except.ok.injEq] at h
      rw [← h]
  · intro s; rfl
  · intro mode s disp s1 evs h
    unfold KritaFrontend.apply_img2img at h
    cases hd : s.doc with
    | none => rw [hd] at h; exact absurd h (by simp)
    | some d =>
      rw [hd] at h
      simp only [Except.ok.injEq, Prod.mk.injEq] at h
      rw [← h.1]
  · intro s disp evs h
    unfold KritaFrontend.apply_simple_upscale at h
    cases hd : s.doc with
    | none => rw [hd] at h; exact absurd h (by simp)
    | some d =>
      rw [hd] at h
      simp only [Except.ok.injEq, Prod.mk.injEq] at h
      rw [← h.1]
  · intro orig layers s d dEnd evs hdoc hadd
    unfold KritaFrontend.add_mask at hadd
    rw [hdoc] at hadd
    simp only [Except.ok.injEq, Prod.mk.injEq] at hadd
    obtain ⟨hd1, he1⟩ := hadd
    constructor
    · rw [← he1]
      simp only [maskShapes, List.filterMap_append]
      have hf := KritaFrontend.add_mask_fold_shapes orig layers d []
      simp only [maskShapes] at hf
      simp [hf]
    · rw [← hd1]
  · intro f orig mode s resp hm
    unfold KritaFrontend.img2img_cb
    cases resp with
    | none => rfl
    | some r =>
      cases s.doc with
      | none => rfl
      | some d =>
        cases hir : (KritaFrontend.insertOutputs
          (if mode = 1 then "inpaint" else if mode = 2 then "sd upscale" else "img2img")
          0 f d r.outputs).error with
        | some e => simp [hir]
        | none => simp [hir, hm]
  · intro f s resp
    unfold KritaFrontend.upscale_cb
    cases resp with
    | none => rfl
    | some out =>
      cases s.doc with
      | none => rfl
      | some d =>
        cases hir : (KritaFrontend.insert f d "upscale" out).error with
        | some e => simp [hir]
        | none => simp [hir]
  · intro f orig s resp hcfg
    unfold KritaFrontend.txt2img_cb
    cases resp with
    | none => rfl
    | some r =>
      cases s.doc with
      | none => rfl
      | some d =>
        cases hir : (KritaFrontend.insertOutputs "txt2img" 0 f d r.outputs).error with
        | some e => simp [hir]
        | none => simp [hir, hcfg]

/-- A second, different selection shape, standing for a selection the user
made after dispatch but before the deferred mask creation ran. -/
def exSelB : Selection := { x := 0, y := 0, width := 30, height := 30, shape := 2 }

/-- The sample document carrying the user's NEW live selection `exSelB`. -/
def exDocSelB : Document :=
  { width := 100, height := 100, colorDepth := "U8", colorModel := "RGBA",
    selection := some exSelB, activeNode := exNode, layers := [] }

/-- A `Script` state whose captured selection is `exSel` while the
document's live selection has since become `exSelB`. -/
def exStateMask : ScriptState :=
  { cfg := exCfg, doc := some exDocSelB, node := exNode, selection := some exSel,
    x := 10, y := 10, width := 20, height := 20 }

/-- C9 counterexample: the older revision's `create_mask_layer_internal`
triggers `add_new_transparency_mask` against the document's LIVE selection
(`exSelB`), not the captured original (`exSel`): the mask shape differs
from the original pre-adjustment selection. -/
theorem C9_counterexample :
    exStateMask.selection = some exSel ∧
    maskShapes (KritaPlugin.create_mask_layer_internal exStateMask).events =
      [some exSelB] ∧
    some exSelB ≠ some exSel := by
  decide

/-- The document state after the deferred mask run of the witness: the live
selection of the callback-time state is restored. -/
def exDocMaskEnd : Document :=
  { width := 100, height := 100, colorDepth := "U8", colorModel := "RGBA",
    selection := some { x := 50, y := 60, width := 7, height := 9, shape := 5 },
    activeNode := exNode, layers := [] }

/-- The event trace of the witness's deferred mask run. -/
def exMaskEvs : List Event :=
  [Event.setActiveNode "txt2img 1", Event.setSelection (some exSel),
   Event.addTransparencyMask "txt2img 1" (some exSel),
   Event.setSelection (some { x := 50, y := 60, width := 7, height := 9, shape := 5 }),
   Event.setActiveNode "bg"]

/-- C9 witness: the newer revision's deferred `add_mask`, run at a state
whose live selection is (50,60,7,9), still masks with the captured original
`exSel` and then restores the live selection. -/
theorem C9_witness :
    KritaFrontend.add_mask (some exSel) ["txt2img 1"] exLiveState =
      .ok (exDocMaskEnd, exMaskEvs) ∧
    maskShapes exMaskEvs = [some (exSel)] ∧
    exDocMaskEnd.selection = exLiveState.selection := by
  refine ⟨rfl, ?_, ?_⟩
  · exact (C9_transparency_mask_original_selection.2.2.2.2.1 (some exSel) ["txt2img 1"]
      exLiveState exDoc exDocMaskEnd exMaskEvs rfl rfl).1
  · exact (C9_transparency_mask_original_selection.2.2.2.2.1 (some exSel) ["txt2img 1"]
      exLiveState exDoc exDocMaskEnd exMaskEvs rfl rfl).2

/-- C10: when the active node's type is neither "paintlayer" nor
"filelayer", `get_mask_image` returns `None`, and the inpaint dispatch then
neither saves a mask temp image nor hides the active layer before capturing
the base selection image; the backend inpaint request carries a `None`
mask. -/
theorem C10_non_paint_node_no_mask (s : ScriptState) (d : Document)
    (hdoc : s.doc = some d)
    (h1 : s.node.type ≠ "paintlayer") (h2 : s.node.type ≠ "filelayer") :
    KritaFrontend.get_mask_image s = none ∧
    KritaFrontend.apply_img2img 1 s =
      .ok ({ frozen := KritaFrontend.img_inserter s, maskOrig := some s.selection,
             request := Request.inpaint (KritaFrontend.get_selection_image s) none
               s.selection.isSome },
           s,
           (if s.cfg.save_temp_images then [Event.saveTemp "sel"] else []) ++
             [Event.request (Request.inpaint (KritaFrontend.get_selection_image s) none
               s.selection.isSome)]) := by
  have hmask : KritaFrontend.get_mask_image s = none := by
    unfold KritaFrontend.get_mask_image
    simp [h1, h2]
  refine ⟨hmask, ?_⟩
  obtain ⟨cfg1, doc1, node1, sel1, x1, y1, w1, h1⟩ := s
  change doc1 = some d at hdoc
  subst hdoc
  unfold KritaFrontend.apply_img2img
  simp [hmask]

/-- A state whose active node is a group layer. -/
def exStateGroup : ScriptState :=
  { cfg := exCfg, doc := some exDoc,
    node := { name := "grp", type := "grouplayer", visible := true },
    selection := some exSel, x := 10, y := 10, width := 20, height := 20 }

/-- C10 witness: an inpaint dispatch from a group-layer node emits no
mask-save and no hide event, and posts a `None` mask. -/
theorem C10_witness :
    KritaFrontend.get_mask_image exStateGroup = none ∧
    KritaFrontend.apply_img2img 1 exStateGroup =
      .ok ({ frozen := KritaFrontend.img_inserter exStateGroup,
             maskOrig := some exStateGroup.selection,
             request := Request.inpaint (KritaFrontend.get_selection_image exStateGroup)
               none exStateGroup.selection.isSome },
           exStateGroup,
           (if exStateGroup.cfg.save_temp_images then [Event.saveTemp "sel"] else []) ++
             [Event.request (Request.inpaint
               (KritaFrontend.get_selection_image exStateGroup) none
               exStateGroup.selection.isSome)]) :=
  C10_non_paint_node_no_mask exStateGroup exDoc rfl (by decide) (by decide)
